import Mathlib

/-!
Verification of the Nepali text cleaning/preprocessing engine
(`Nepali_text_cleaner.py` and `Nepali_preprocessor.py`).

The Python code is shallowly embedded: each method becomes a Lean function on
`String` (`String.data : List Char` is the sequence of code points, matching
Python's `len`/indexing on `str`).  The regular expressions of the source are
embedded as explicit scanners/matchers with Python `re` semantics
(leftmost match, greedy quantifiers with backtracking where the pattern needs
it, `re.sub` empty-match semantics of Python 3.7+).

Modelling conventions:
* Unicode NFC normalization (`unicodedata.normalize('NFC', ·)`) is an external
  Unicode algorithm; it is threaded through as an explicit function parameter
  `nfc : String → String`, so theorems hold for every possible normalizer.
* Python's `\s` and `str.strip` whitespace and the `\w` word class are modelled
  on the character universe the pipelines work over (ASCII plus the Devanagari
  block U+0900–U+097F); `pyIsWordChar` reproduces exactly which code points of
  that universe Python's `re.\w` matches.
-/

/-- Python `\s` / `str.strip` whitespace, restricted to the ASCII range
(space and the control characters TAB, LF, VT, FF, CR). -/
def pyIsSpace (c : Char) : Bool :=
  decide (c.toNat = 32 ∨ (9 ≤ c.toNat ∧ c.toNat ≤ 13))

/-- ASCII digit `0`-`9`. -/
def isAsciiDigit (c : Char) : Bool :=
  decide (48 ≤ c.toNat ∧ c.toNat ≤ 57)

/-- Devanagari digit `०`-`९` (U+0966–U+096F). -/
def isDevDigit (c : Char) : Bool :=
  decide (0x966 ≤ c.toNat ∧ c.toNat ≤ 0x96F)

/-- The digit class `[\d०-९]` used by every number pattern of the source. -/
def isDigitN (c : Char) : Bool :=
  isAsciiDigit c || isDevDigit c

/-- ASCII Latin letter, the class `[a-zA-Z]` (`english_pattern`). -/
def isLatinLetter (c : Char) : Bool :=
  decide ((65 ≤ c.toNat ∧ c.toNat ≤ 90) ∨ (97 ≤ c.toNat ∧ c.toNat ≤ 122))

/-- The Devanagari block `[ऀ-ॿ]` (`devanagari_pattern`). -/
def isDevBlock (c : Char) : Bool :=
  decide (0x900 ≤ c.toNat ∧ c.toNat ≤ 0x97F)

/-- Python's `\w` on the ASCII ∪ Devanagari universe: ASCII alphanumerics and
`_`, plus exactly the code points of U+0900–U+097F that `re.\w` matches
(letters `Lo`/`Lm` and digits `Nd`; combining marks and the dandas are not
word characters). -/
def pyIsWordChar (c : Char) : Bool :=
  isAsciiDigit c || isLatinLetter c || decide (c.toNat = 95) ||
  decide ((0x904 ≤ c.toNat ∧ c.toNat ≤ 0x939) ∨ c.toNat = 0x93D ∨ c.toNat = 0x950 ∨
          (0x958 ≤ c.toNat ∧ c.toNat ≤ 0x961) ∨ (0x966 ≤ c.toNat ∧ c.toNat ≤ 0x96F) ∨
          (0x971 ≤ c.toNat ∧ c.toNat ≤ 0x97F))

/-- Python `str.strip()` on a list of code points. -/
def pyStripL (l : List Char) : List Char :=
  ((l.dropWhile pyIsSpace).reverse.dropWhile pyIsSpace).reverse

/-- Python `str.strip()`. -/
def pyStripStr (s : String) : String :=
  ⟨pyStripL s.data⟩

/-- Per-code-point `str.map`; used for the single-character `str.replace`
chains of the source (replacing one code point by another). -/
def charMap (f : Char → Char) (s : String) : String :=
  ⟨s.data.map f⟩

/-- Python `str.lower()` (ASCII case folding; Devanagari has no case). -/
def pyLower (s : String) : String :=
  charMap Char.toLower s

/-- Length of the longest prefix satisfying `p` (the greedy match of `p*`). -/
def takeWhileLen (p : Char → Bool) (l : List Char) : Nat :=
  (l.takeWhile p).length

/-!
### `re.sub` and `re.search` engines

`subLoop` is the scanning loop of `re.sub` for patterns that can never match
the empty string: at each position the anchored `matcher` either yields the
length of the (backtracking-correct) match at that position together with the
replacement, in which case the match is consumed, or the engine advances one
character.  The previous character of the *original* string is threaded
through for `\b` word-boundary tests.  `fuel` is an upper bound on the number
of scanning steps (each step consumes at least one character, so the length of
the list suffices).
-/

def subLoop (matcher : Option Char → List Char → Option (Nat × List Char)) :
    Nat → Option Char → List Char → List Char
  | 0, _, l => l
  | _ + 1, _, [] => []
  | fuel + 1, prev, c :: cs =>
    match matcher prev (c :: cs) with
    | some (n, rep) =>
        rep ++ subLoop matcher fuel (((c :: cs).take n).getLast?) ((c :: cs).drop n)
    | none => c :: subLoop matcher fuel (some c) cs

/-- `pattern.sub(rep, s)` for a never-empty-match `matcher`. -/
def pySub (matcher : Option Char → List Char → Option (Nat × List Char))
    (s : String) : String :=
  ⟨subLoop matcher s.data.length none s.data⟩

/-- `pattern.search(s) is not None` for a never-empty-match `matcher`:
try an anchored match at every position. -/
def searchLoop (matcher : Option Char → List Char → Option (Nat × List Char)) :
    Nat → Option Char → List Char → Bool
  | 0, _, _ => false
  | fuel + 1, prev, l =>
    match matcher prev l with
    | some _ => true
    | none =>
      match l with
      | [] => false
      | c :: cs => searchLoop matcher fuel (some c) cs

def pySearch (matcher : Option Char → List Char → Option (Nat × List Char))
    (s : String) : Bool :=
  searchLoop matcher (s.data.length + 1) none s.data

/-- Matcher for `\s+` (replacement `' '`): the whitespace-collapsing pattern
`whitespace_pattern` of both pipelines. -/
def mWsPlus (_ : Option Char) (l : List Char) : Option (Nat × List Char) :=
  let n := takeWhileLen pyIsSpace l
  if n = 0 then none else some (n, [' '])

/-- Matcher for the HTML pattern `<[^>]+>` (replacement `' '`). -/
def mHtml (_ : Option Char) (l : List Char) : Option (Nat × List Char) :=
  match l with
  | '<' :: rest =>
    let n := takeWhileLen (fun c => !(c == '>')) rest
    if n = 0 then none
    else
      match rest.drop n with
      | '>' :: _ => some (n + 2, [' '])
      | _ => none
  | _ => none

/-- The character class of the URL pattern after the scheme:
`[a-zA-Z]|[0-9]|[$-_@.&+]|[!*\\(\\),]|%xx` — note `[$-_]` is the code point
range U+0024–U+005F, which already contains `%`, so the percent-escape
alternative adds no further characters. -/
def inUrlClass (c : Char) : Bool :=
  isLatinLetter c || isAsciiDigit c ||
  decide (0x24 ≤ c.toNat ∧ c.toNat ≤ 0x5F) ||
  (c == '!' || c == '*' || c == '\\' || c == '(' || c == ')' || c == ',')

/-- Matcher for `url_pattern` = `http[s]?://(...)+` (replacement `' '`). -/
def mUrl (_ : Option Char) (l : List Char) : Option (Nat × List Char) :=
  if ("https://").data.isPrefixOf l then
    let n := takeWhileLen inUrlClass (l.drop 8)
    if n = 0 then none else some (8 + n, [' '])
  else if ("http://").data.isPrefixOf l then
    let n := takeWhileLen inUrlClass (l.drop 7)
    if n = 0 then none else some (7 + n, [' '])
  else none

/-- Local-part class `[A-Za-z0-9._%+-]` of `email_pattern`. -/
def inEmailLocal (c : Char) : Bool :=
  isLatinLetter c || isAsciiDigit c ||
  (c == '.' || c == '_' || c == '%' || c == '+' || c == '-')

/-- Domain class `[A-Za-z0-9.-]` of `email_pattern`. -/
def inEmailDomain (c : Char) : Bool :=
  isLatinLetter c || isAsciiDigit c || (c == '.' || c == '-')

/-- Top-level-domain class `[A-Z|a-z]` of `email_pattern` (the source class
literally contains `|`). -/
def inEmailTld (c : Char) : Bool :=
  isLatinLetter c || c == '|'

/-- Word-character status of an optional character (`none` = string edge,
which `\b` treats as a non-word position). -/
def wordOpt (oc : Option Char) : Bool :=
  match oc with
  | some c => pyIsWordChar c
  | none => false

/-- `[A-Z|a-z]{2,}\b` with greedy backtracking: from the maximal TLD run of
length `m` downwards, find the largest `j ≥ 2` such that a word boundary
holds after `j` characters.  Returns the number of characters matched. -/
def tldFind (tl : List Char) : Option Nat :=
  let m := takeWhileLen inEmailTld tl
  (List.range (m + 1)).reverse.findSome? fun j =>
    if j < 2 then none
    else if wordOpt (tl.get? (j - 1)) != wordOpt (tl.get? j) then some j
    else none

/-- `[A-Za-z0-9.-]+\.[A-Z|a-z]{2,}\b` with greedy backtracking on the
domain run (length `dn`): `re` first tries to place the literal `.` as far
right as possible. Returns the number of characters matched. -/
def domainFind (rest : List Char) (dn : Nat) : Option Nat :=
  (List.range dn).reverse.findSome? fun k =>
    if k = 0 then none
    else
      match rest.drop k with
      | '.' :: tl => (tldFind tl).map (fun j => k + 1 + j)
      | _ => none

/-- Matcher for `email_pattern` =
`\b[A-Za-z0-9._%+-]+@[A-Za-z0-9.-]+\.[A-Z|a-z]{2,}\b` (replacement `' '`). -/
def mEmail (prev : Option Char) (l : List Char) : Option (Nat × List Char) :=
  match l with
  | [] => none
  | c :: _ =>
    if wordOpt prev == pyIsWordChar c then none
    else
      let ln := takeWhileLen inEmailLocal l
      if ln = 0 then none
      else
        match l.drop ln with
        | '@' :: rest =>
          (domainFind rest (takeWhileLen inEmailDomain rest)).map
            (fun k => (ln + 1 + k, [' ']))
        | _ => none

/-- Sentence-terminator class `[।.!?]` of the excessive-punctuation pattern. -/
def isSentTerm (c : Char) : Bool :=
  c == '।' || c == '.' || c == '!' || c == '?'

/-- Matcher for `([।.!?]){3,}` (replacement `\1\1`): a maximal run of at
least three sentence terminators is replaced by the *last* repetition — the
captured group — doubled. -/
def mSentTermRun (_ : Option Char) (l : List Char) : Option (Nat × List Char) :=
  let n := takeWhileLen isSentTerm l
  if n < 3 then none
  else
    match (l.take n).getLast? with
    | some a => some (n, [a, a])
    | none => none

/-- The "special character" class `[^\w\sऀ-ॿ]`. -/
def isSpecialChar (c : Char) : Bool :=
  !(pyIsWordChar c || pyIsSpace c || isDevBlock c)

/-- Matcher for `[^\w\sऀ-ॿ]{3,}` (replacement: empty string —
used with `sub('')` by the cleaner and with `search` by the preprocessor). -/
def mSpecialRun (_ : Option Char) (l : List Char) : Option (Nat × List Char) :=
  let n := takeWhileLen isSpecialChar l
  if n < 3 then none else some (n, [])

/-- Matcher for `\s*x\s*` (replacement `x + ' '`), the sentence-structure
normalizations of the cleaner for `।`, `!` and `,`. -/
def mPunctSpace (x : Char) (_ : Option Char) (l : List Char) :
    Option (Nat × List Char) :=
  let w := takeWhileLen pyIsSpace l
  match l.drop w with
  | c :: rest =>
    if c == x then
      let t := takeWhileLen pyIsSpace rest
      some (w + 1 + t, [x, ' '])
    else none
  | [] => none

/-!
The question-mark rule of `normalize_whitespace` is written in the source as
`re.sub(r'\s*?\s*', '? ', text)`.  The `?` there is a *lazy quantifier* on the
first `\s*`, not a literal question mark, so the pattern is equivalent to
`\s*` and matches (possibly emptily) at every position.  Python ≥3.7 `re.sub`
then replaces a maximal whitespace run at each position, and additionally
replaces the empty match at every position not inside such a run (including
the end of the string), copying the character that follows.  `qmarkSubAux`
reproduces this exactly: `skip` is true while inside an already-replaced
whitespace run.
-/

def qmarkSubAux : Bool → List Char → List Char
  | _, [] => ['?', ' ']
  | skip, c :: cs =>
    if pyIsSpace c then
      if skip then qmarkSubAux true cs
      else '?' :: ' ' :: qmarkSubAux true cs
    else '?' :: ' ' :: c :: qmarkSubAux false cs

/-- `re.sub(r'\s*?\s*', '? ', s)`. -/
def qmarkSub (s : String) : String :=
  ⟨qmarkSubAux false s.data⟩

/-!
### Number recognizer patterns (`_compile_number_patterns`)

Each `matchP*` decides `pattern.fullmatch(s)` for one compiled pattern.  The
character classes of each pattern are pairwise disjoint at every choice point
except where noted, so greedy matching needs no backtracking; where the source
pattern has an optional `\.?`, taking the dot when present is forced (no
following element can consume a `.`).
-/

/-- `[\d०-९]+\.?[\d०-९]*\s*%` — percentages. -/
def matchP1 (l : List Char) : Bool :=
  let d1 := takeWhileLen isDigitN l
  if d1 = 0 then false
  else
    let r := l.drop d1
    let r := match r with | '.' :: t => t | _ => r
    let r := r.drop (takeWhileLen isDigitN r)
    let r := r.drop (takeWhileLen pyIsSpace r)
    r == ['%']

/-- `(?:रु\.?|Rs\.?)\s*[\d०-९,]+\.?[\d०-९]*` — currency. -/
def matchP2 (l : List Char) : Bool :=
  let pre :=
    if ("रु").data.isPrefixOf l then some (l.drop 2)
    else if ("Rs").data.isPrefixOf l then some (l.drop 2)
    else none
  match pre with
  | none => false
  | some r =>
    let r := match r with | '.' :: t => t | _ => r
    let r := r.drop (takeWhileLen pyIsSpace r)
    let g := takeWhileLen (fun c => isDigitN c || c == ',') r
    if g = 0 then false
    else
      let r := r.drop g
      let r := match r with | '.' :: t => t | _ => r
      let r := r.drop (takeWhileLen isDigitN r)
      r.isEmpty

/-- The measurement unit vocabulary `(?:किमी|मिटर|लिटर|kg|km|m|l|cm|mm)`. -/
def measurementUnits : List String :=
  [("किमी"), ("मिटर"), ("लिटर"), ("kg"), ("km"), ("m"), ("l"), ("cm"), ("mm")]

/-- `[\d०-९]+\.?[\d०-९]*\s*(?:किमी|…|mm)` — measurements.  For a fullmatch
the remainder after the numeric part must equal one of the alternatives
exactly (ordered alternation plus the end anchor reduces to membership). -/
def matchP3 (l : List Char) : Bool :=
  let d1 := takeWhileLen isDigitN l
  if d1 = 0 then false
  else
    let r := l.drop d1
    let r := match r with | '.' :: t => t | _ => r
    let r := r.drop (takeWhileLen isDigitN r)
    let r := r.drop (takeWhileLen pyIsSpace r)
    measurementUnits.any (fun u => r == u.data)

/-- `(?:19|20|२०)[\d०-९]{2}` — year-like numbers. -/
def matchP4 (l : List Char) : Bool :=
  match l with
  | [a, b, c, d] =>
    ((a == '1' && b == '9') || (a == '2' && b == '0') || (a == '२' && b == '०')) &&
      isDigitN c && isDigitN d
  | _ => false

/-- `[\d०-९]+\.[\d०-९]+` — decimals. -/
def matchP5 (l : List Char) : Bool :=
  let d1 := takeWhileLen isDigitN l
  if d1 = 0 then false
  else
    match l.drop d1 with
    | '.' :: t =>
      let d2 := takeWhileLen isDigitN t
      if d2 = 0 then false else (t.drop d2).isEmpty
    | _ => false

/-- Comma-group tail `(?:,[\d०-९]{3})*` with the end anchor: each group is a
comma followed by exactly three digits. -/
def p6Groups : Nat → List Char → Bool
  | _, [] => true
  | 0, _ => false
  | fuel + 1, c :: rest =>
    if c == ',' then
      takeWhileLen isDigitN rest == 3 && p6Groups fuel (rest.drop 3)
    else false

/-- `[\d०-९]{1,3}(?:,[\d०-९]{3})*` — comma-grouped numbers.  The leading
maximal digit run must have length 1–3 (a longer run cannot be split: the
character after the counted prefix would be a digit where `,` or the end is
required). -/
def matchP6 (l : List Char) : Bool :=
  let d1 := takeWhileLen isDigitN l
  if d1 = 0 || 3 < d1 then false
  else p6Groups l.length (l.drop d1)

/-- `[\d०-९]+` — plain integers (token-level preprocessor only). -/
def matchP7 (l : List Char) : Bool :=
  !l.isEmpty && l.all isDigitN

/-- Fullmatch against any of the preprocessor's seven `number_patterns`. -/
def tokenAnyFullMatch (l : List Char) : Bool :=
  matchP1 l || matchP2 l || matchP3 l || matchP4 l || matchP5 l || matchP6 l ||
    matchP7 l

/-- Fullmatch against any of the cleaner's six `number_patterns` (the cleaner
has no plain-integer catch-all). -/
def cleanerAnyFullMatch (l : List Char) : Bool :=
  matchP1 l || matchP2 l || matchP3 l || matchP4 l || matchP5 l || matchP6 l

/-- `pattern.search` for a pure regular expression succeeds iff some
contiguous slice is fully matched; ranging over all slices implements
"any of the patterns `.search`es the segment". -/
def anySliceFullMatch (fm : List Char → Bool) (l : List Char) : Bool :=
  (List.range (l.length + 1)).any fun i =>
    (List.range (l.length - i + 1)).any fun k => fm ((l.drop i).take k)

/-!
### `NepaliTextPreprocessor` (`Nepali_preprocessor.py`)
-/

/-- The configuration keys read by `NepaliTextPreprocessor`. -/
structure PreprocConfig where
  preserve_numbers : Bool
  normalize_unicode : Bool
  remove_whitespace : Bool
  standardize_punctuation : Bool
  remove_urls : Bool
  remove_emails : Bool
  language_filtering : Bool
  length_filtering : Bool
  min_token_length : Nat
  max_token_length : Nat
  remove_stopwords : Bool
  normalize_devanagari_numerals : Bool
  remove_duplicates : Bool
  remove_excessive_special_chars : Bool
  deriving Repr, DecidableEq

/-- `_get_default_preprocessing_config`. -/
def defaultPreprocConfig : PreprocConfig where
  preserve_numbers := true
  normalize_unicode := true
  remove_whitespace := true
  standardize_punctuation := true
  remove_urls := true
  remove_emails := true
  language_filtering := true
  length_filtering := true
  min_token_length := 1
  max_token_length := 50
  remove_stopwords := false
  normalize_devanagari_numerals := false
  remove_duplicates := true
  remove_excessive_special_chars := true

/-- The Devanagari→Arabic digit mapping `devanagari_to_arabic`, applied as the
chain of single-character `str.replace` calls of
`normalize_devanagari_numerals` (equivalent to one per-character map, since no
replacement result is itself a key). -/
def devToArab (c : Char) : Char :=
  if c = '०' then '0' else if c = '१' then '1' else if c = '२' then '2'
  else if c = '३' then '3' else if c = '४' then '4' else if c = '५' then '5'
  else if c = '६' then '6' else if c = '७' then '7' else if c = '८' then '8'
  else if c = '९' then '9' else c

def nepali_stopwords : List String :=
  [("अब"), ("अगाडि"), ("अझै"), ("अक्सर"), ("अलग"), ("आठ"), ("आजको"), ("आठ"), ("आदि"),
   ("आत्म"), ("आफू"), ("आफूलाई"), ("आफैलाई"), ("आफ्नो"), ("आफ्नै"), ("आयो"), ("उदाहरण"),
   ("उन"), ("उनको"), ("उनले"), ("उप"), ("उहाँलाई"), ("एउटै"), ("एक"), ("एकदम"), ("औं"),
   ("कतै"), ("कम से कम"), ("कसरी"), ("कसै"), ("कसैले"), ("कहाँ"), ("कहाँबाट"),
   ("कहिलेकाहीं"), ("कहिल्यै"), ("कहीं"), ("का"), ("कि"), ("किन"), ("किनभने"), ("कुनै"),
   ("कुरा"), ("कृपया"), ("के"), ("केवल"), ("केहि"), ("केही"), ("को"), ("कोही"),
   ("क्रमशः"), ("गए"), ("गरि"), ("गरी"), ("गरेका"), ("गरेको"), ("गरेर"), ("गरौं"),
   ("गर्छ"), ("गर्छु"), ("गर्दै"), ("गर्न"), ("गर्नु"), ("गर्नुपर्छ"), ("गर्ने"),
   ("गर्यौं"), ("गैर"), ("चाँडै"), ("चार"), ("चाले"), ("चाहनुहुन्छ"), ("चाहन्छु"),
   ("चाहिए"), ("छ"), ("छन्"), ("छु"), ("छैन"), ("छौँ"), ("छौं"), ("जताततै"), ("जब"),
   ("जबकि"), ("जसको"), ("जसबाट"), ("जसमा"), ("जसलाई"), ("जसले"), ("जस्तै"), ("जस्तो"),
   ("जस्तोसुकै"), ("जहाँ"), ("जान"), ("जाहिर"), ("जुन"), ("जे"), ("जो"), ("ठीक"), ("त"),
   ("तत्काल"), ("तथा"), ("तदनुसार"), ("तपाइँको"), ("तपाईं"), ("तर"), ("तल"), ("तापनि"),
   ("तिनी"), ("तिनीहरू"), ("तिनीहरूको"), ("तिनीहरूलाई"), ("तिनीहरूले"), ("तिमी"), ("तिर"),
   ("ती"), ("तीन"), ("तुरुन्तै"), ("तेस्रो"), ("त्यसकारण"), ("त्यसपछि"), ("त्यसमा"),
   ("त्यसैले"), ("त्यहाँ"), ("त्यो"), ("थिए"), ("थिएन"), ("थिएनन्"), ("थियो"), ("दिए"),
   ("दिनुभएको"), ("दिनुहुन्छ"), ("दुई"), ("देख"), ("देखि"), ("देखिन्छ"), ("देखियो"),
   ("देखे"), ("देखेको"), ("देखेर"), ("देख्न"), ("दोश्रो"), ("दोस्रो"), ("धेरै"), ("न"),
   ("नजिकै"), ("नत्र"), ("नयाँ"), ("नि"), ("निम्ति"), ("निम्न"), ("निम्नानुसार"),
   ("निर्दिष्ट"), ("नै"), ("नौ"), ("पक्का"), ("पक्कै"), ("पछि"), ("पछिल्लो"), ("पटक"),
   ("पनि"), ("पर्छ"), ("पर्थ्यो"), ("पर्याप्त"), ("पहिले"), ("पहिलो"), ("पहिल्यै"),
   ("पाँच"), ("पाँचौं"), ("पूर्व"), ("प्रति"), ("प्रत्येक"), ("प्लस"), ("फेरि"), ("बने"),
   ("बन्द"), ("बन्न"), ("बरु"), ("बाटो"), ("बारे"), ("बाहिर"), ("बाहेक"), ("बीच"),
   ("बीचमा"), ("भए"), ("भएको"), ("भन"), ("भने"), ("भनेर"), ("भन्छन्"), ("भन्छु"),
   ("भन्दा"), ("भन्नुभयो"), ("भन्ने"), ("भर"), ("भित्र"), ("भित्री"), ("म"), ("मलाई"),
   ("मा"), ("मात्र"), ("माथि"), ("मुख्य"), ("मेरो"), ("यति"), ("यथोचित"), ("यदि"),
   ("यद्यपि"), ("यस"), ("यसको"), ("यसपछि"), ("यसबाहेक"), ("यसरी"), ("यसो"), ("यस्तो"),
   ("यहाँ"), ("यहाँसम्म"), ("या"), ("यी"), ("यो"), ("र"), ("रही"), ("रहेका"), ("रहेको"),
   ("राखे"), ("राख्छ"), ("राम्रो"), ("रूप"), ("लगभग"), ("लाई"), ("लागि"), ("ले"),
   ("वरिपरि"), ("वास्तवमा"), ("वाहेक"), ("विरुद्ध"), ("विशेष"), ("शायद"), ("सँग"),
   ("सँगै"), ("सक्छ"), ("सट्टा"), ("सधैं"), ("सबै"), ("सबैलाई"), ("समय"), ("सम्भव"),
   ("सम्म"), ("सही"), ("साँच्चै"), ("सात"), ("साथ"), ("साथै"), ("सायद"), ("सारा"), ("सो"),
   ("सोध्न"), ("सोही"), ("स्पष्ट"), ("हरे"), ("हरेक"), ("हामी"), ("हामीलाई"), ("हाम्रो"),
   ("हुँ"), ("हुन"), ("हुने"), ("हुनेछ"), ("हुन्"), ("हुन्छ"), ("हो"), ("होइन"),
   ("होइनन्"), ("होला"), ("होस्"), ("नै"), ("पो"), ("कि’"), ("म")]
namespace NepaliTextPreprocessor

/-- `is_number_token`: the stripped token fully matches one of the seven
`number_patterns` (always false when `preserve_numbers` is off). -/
def is_number_token (cfg : PreprocConfig) (token : String) : Bool :=
  cfg.preserve_numbers && tokenAnyFullMatch (pyStripL token.data)

/-- `normalize_unicode` (the NFC normalizer is the parameter `nfc`). -/
def normalize_unicode (nfc : String → String) (cfg : PreprocConfig)
    (text : String) : String :=
  if cfg.normalize_unicode then nfc text else text

/-- `normalize_whitespace`: collapse `\s+` to a single space, then `strip`. -/
def normalize_whitespace (cfg : PreprocConfig) (text : String) : String :=
  if cfg.remove_whitespace then pyStripStr (pySub mWsPlus text) else text

/-- `standardize_punctuation`: danda and double danda become `.`, skipped
entirely for number tokens. -/
def standardize_punctuation (cfg : PreprocConfig) (text : String) : String :=
  if cfg.standardize_punctuation then
    if is_number_token cfg text then text
    else charMap (fun c => if c = '।' ∨ c = '॥' then '.' else c) text
  else text

/-- `remove_noise`: URLs, emails and runs of 3+ special characters reject the
token; number tokens are exempt. -/
def remove_noise (cfg : PreprocConfig) (token : String) : Option String :=
  if is_number_token cfg token then some token
  else if cfg.remove_urls && pySearch mUrl token then none
  else if cfg.remove_emails && pySearch mEmail token then none
  else if cfg.remove_excessive_special_chars && pySearch mSpecialRun token then none
  else some token

/-- `devanagari_pattern.search(token)`: the token contains a Devanagari-block
code point. -/
def containsDevanagari (token : String) : Bool :=
  token.data.any isDevBlock

/-- `english_pattern.search(token)`: the token contains a Latin letter. -/
def containsLatin (token : String) : Bool :=
  token.data.any isLatinLetter

/-- `english_pattern.fullmatch(token)`: the token is a nonempty string of
Latin letters. -/
def latinWordFull (token : String) : Bool :=
  !token.data.isEmpty && token.data.all isLatinLetter

/-- `filter_by_language` (true = keep). -/
def filter_by_language (cfg : PreprocConfig) (token : String) : Bool :=
  if cfg.language_filtering = false then true
  else if is_number_token cfg token then true
  else if containsDevanagari token then true
  else if latinWordFull token && decide (2 < token.data.length) then true
  else if containsDevanagari token && containsLatin token then true
  else false

/-- `filter_by_length` (true = keep); numbers are always kept. -/
def filter_by_length (cfg : PreprocConfig) (token : String) : Bool :=
  if cfg.length_filtering = false then true
  else if is_number_token cfg token then true
  else decide (cfg.min_token_length ≤ token.data.length) &&
       decide (token.data.length ≤ cfg.max_token_length)

/-- `remove_stopwords` (true = keep): drop case-folded members of the
stopword set; numbers are never dropped. -/
def remove_stopwords (cfg : PreprocConfig) (token : String) : Bool :=
  if cfg.remove_stopwords = false then true
  else if is_number_token cfg token then true
  else !nepali_stopwords.contains (pyLower token)

/-- `normalize_devanagari_numerals`. -/
def normalize_devanagari_numerals (cfg : PreprocConfig) (token : String) :
    String :=
  if cfg.normalize_devanagari_numerals then charMap devToArab token else token

/-- `preprocess_token`: the full per-token pipeline. -/
def preprocess_token (nfc : String → String) (cfg : PreprocConfig)
    (token : String) : Option String :=
  let t1 := normalize_unicode nfc cfg token
  let t2 := normalize_whitespace cfg t1
  let t3 := standardize_punctuation cfg t2
  match remove_noise cfg t3 with
  | none => none
  | some t4 =>
    if filter_by_language cfg t4 = false then none
    else if filter_by_length cfg t4 = false then none
    else if remove_stopwords cfg t4 = false then none
    else
      let t5 := normalize_devanagari_numerals cfg t4
      if pyStripStr t5 = ("") then none else some t5

/-- Order-preserving deduplication, `list(dict.fromkeys(tokens))`:
the first occurrence of each token is kept. -/
def dedupAux (seen : List String) : List String → List String
  | [] => []
  | t :: ts => if seen.contains t then dedupAux seen ts
               else t :: dedupAux (t :: seen) ts

def dedupFirst (l : List String) : List String :=
  dedupAux [] l

/-- The fields of the `ProcessingResult` built by `preprocess_tokens`
(`success` is true whenever the loop completes, which in this pure model is
always; no exception can escape). -/
structure PreprocTokensResult where
  tokens : List String
  original_count : Nat
  processed_count : Nat
  removed_count : Nat
  success : Bool
  deriving Repr, DecidableEq

/-- `preprocess_tokens`: map `preprocess_token` over the list, counting the
rejected tokens, then optionally deduplicate.  `removed_count` is incremented
only in the per-token loop, so it is the number of rejected tokens — the
number of inputs minus the number of survivors before deduplication. -/
def preprocess_tokens (nfc : String → String) (cfg : PreprocConfig)
    (tokens : List String) : PreprocTokensResult :=
  let processed := tokens.filterMap (preprocess_token nfc cfg)
  let removed := tokens.length - processed.length
  let final := if cfg.remove_duplicates then dedupFirst processed else processed
  { tokens := final
    original_count := tokens.length
    processed_count := final.length
    removed_count := removed
    success := true }

end NepaliTextPreprocessor

/-!
### `NepaliTextCleaner` (`Nepali_text_cleaner.py`)
-/

/-- The configuration keys read by `NepaliTextCleaner`. -/
structure CleanConfig where
  preserve_numbers : Bool
  normalize_unicode : Bool
  remove_extra_whitespace : Bool
  standardize_punctuation : Bool
  remove_urls : Bool
  remove_emails : Bool
  normalize_devanagari_numerals : Bool
  remove_html_tags : Bool
  remove_excessive_punctuation : Bool
  preserve_sentence_structure : Bool
  min_text_length : Nat
  max_text_length : Nat
  deriving Repr, DecidableEq

/-- `_get_default_cleaning_config`. -/
def defaultCleanConfig : CleanConfig where
  preserve_numbers := true
  normalize_unicode := true
  remove_extra_whitespace := true
  standardize_punctuation := true
  remove_urls := true
  remove_emails := true
  normalize_devanagari_numerals := false
  remove_html_tags := true
  remove_excessive_punctuation := true
  preserve_sentence_structure := true
  min_text_length := 10
  max_text_length := 10000

namespace NepaliTextCleaner

/-- `is_number_context`: strip the slice `text[start:end]` and `search` each
of the six cleaner `number_patterns` in it (substring match, not fullmatch). -/
def is_number_context (cfg : CleanConfig) (text : String) (start stop : Nat) :
    Bool :=
  cfg.preserve_numbers &&
    anySliceFullMatch cleanerAnyFullMatch
      (pyStripL ((text.data.drop start).take (stop - start)))

/-- `normalize_unicode` (the NFC normalizer is the parameter `nfc`). -/
def normalize_unicode (nfc : String → String) (cfg : CleanConfig)
    (text : String) : String :=
  if cfg.normalize_unicode then nfc text else text

/-- `remove_html_tags`: `html_pattern.sub(' ', text)`. -/
def remove_html_tags (cfg : CleanConfig) (text : String) : String :=
  if cfg.remove_html_tags then pySub mHtml text else text

/-- `remove_urls`: `url_pattern.sub(' ', text)`. -/
def remove_urls (cfg : CleanConfig) (text : String) : String :=
  if cfg.remove_urls then pySub mUrl text else text

/-- `remove_emails`: `email_pattern.sub(' ', text)`. -/
def remove_emails (cfg : CleanConfig) (text : String) : String :=
  if cfg.remove_emails then pySub mEmail text else text

/-- `normalize_whitespace`: collapse `\s+`, then — when sentence structure is
preserved — apply the four spacing rules for `।`, `?`, `!`, `,` in source
order, then `strip`.  The `?` rule is the source line
`re.sub(r'\s*?\s*', '? ', text)`, embedded faithfully as `qmarkSub`. -/
def normalize_whitespace (cfg : CleanConfig) (text : String) : String :=
  if cfg.remove_extra_whitespace then
    let t1 := pySub mWsPlus text
    let t2 :=
      if cfg.preserve_sentence_structure then
        pySub (mPunctSpace ',')
          (pySub (mPunctSpace '!') (qmarkSub (pySub (mPunctSpace '।') t1)))
      else t1
    pyStripStr t2
  else text

/-- `standardize_punctuation`: `॥` → `।`, then optionally collapse 3+
sentence terminators to two and delete runs of 3+ special characters. -/
def standardize_punctuation (cfg : CleanConfig) (text : String) : String :=
  if cfg.standardize_punctuation then
    let t1 := charMap (fun c => if c = '॥' then '।' else c) text
    if cfg.remove_excessive_punctuation then
      pySub mSpecialRun (pySub mSentTermRun t1)
    else t1
  else text

/-- `normalize_devanagari_numerals`. -/
def normalize_devanagari_numerals (cfg : CleanConfig) (text : String) :
    String :=
  if cfg.normalize_devanagari_numerals then charMap devToArab text else text

/-- `filter_by_length` (true = keep): the *stripped* length must lie in
`[min_text_length, max_text_length]`, both bounds inclusive. -/
def filter_by_length (cfg : CleanConfig) (text : String) : Bool :=
  decide (cfg.min_text_length ≤ (pyStripStr text).data.length) &&
  decide ((pyStripStr text).data.length ≤ cfg.max_text_length)

/-- Phases 1–3 of `clean_text` in source order: Unicode normalization, HTML,
URL and email removal, punctuation standardization, whitespace normalization,
optional numeral normalization. -/
def cleanPhases (nfc : String → String) (cfg : CleanConfig) (text : String) :
    String :=
  normalize_devanagari_numerals cfg
    (normalize_whitespace cfg
      (standardize_punctuation cfg
        (remove_emails cfg
          (remove_urls cfg
            (remove_html_tags cfg
              (normalize_unicode nfc cfg text))))))

/-- `clean_text`: `None` for empty/whitespace-only input, then the phases,
then the length filter, then `cleaned_text if cleaned_text else None`. -/
def clean_text (nfc : String → String) (cfg : CleanConfig) (text : String) :
    Option String :=
  if pyStripStr text = ("") then none
  else
    let cleaned := cleanPhases nfc cfg text
    if filter_by_length cfg cleaned = false then none
    else if pyStripStr cleaned = ("") then none
    else some (pyStripStr cleaned)

/-- A raw article record: every text-bearing field optional
(`None` ↔ the key is absent from the dict). -/
structure RawArticle where
  title : Option String
  description : Option String
  content : Option String
  id : Option String
  category : Option String
  source : Option String
  published_date : Option String
  deriving Repr, DecidableEq

/-- `article.get(key)` truthiness: present and non-empty. -/
def optPart : Option String → List String
  | some s => if s = ("") then [] else [s]
  | none => []

/-- The text parts of an article, `title`/`description`/`content` in order. -/
def articleParts (a : RawArticle) : List String :=
  optPart a.title ++ optPart a.description ++ optPart a.content

/-- The cleaned-article record built by `process_articles` (the actual
cleaned text is commented out in the source and hence absent here too). -/
structure CleanedArticle where
  original_id : String
  original_title : String
  original_length : Nat
  published_date : Option String
  category : Option String
  source : Option String
  deriving Repr, DecidableEq

def mkCleanedArticle (a : RawArticle) (combined : String) (count : Nat) :
    CleanedArticle :=
  { original_id := a.id.getD (("article_") ++ toString count)
    original_title := a.title.getD ("")
    original_length := combined.data.length
    published_date := a.published_date
    category := a.category
    source := a.source }

/-- The per-batch loop of `process_articles`.  `o` is the number of counted
articles so far (used for the fallback id); the result triple is
(articles counted, articles cleaned, cleaned records) for the remaining list. -/
def processLoop (nfc : String → String) (cfg : CleanConfig) :
    Nat → List RawArticle → Nat × Nat × List CleanedArticle
  | _, [] => (0, 0, [])
  | o, a :: rest =>
    if articleParts a = [] then processLoop nfc cfg o rest
    else
      let combined := String.intercalate (" ") (articleParts a)
      let r := processLoop nfc cfg (o + 1) rest
      match clean_text nfc cfg combined with
      | some _ => (r.1 + 1, r.2.1 + 1, mkCleanedArticle a combined (o + 1) :: r.2.2)
      | none => (r.1 + 1, r.2.1, r.2.2)

/-- The data payload of the `ProcessingResult` of `process_articles`
(`success` is true whenever the loop completes; the retention rate is the
exact rational value of the Python float expression). -/
structure ProcessArticlesResult where
  articles : List CleanedArticle
  original_count : Nat
  cleaned_count : Nat
  retention_rate : ℚ
  success : Bool
  deriving Repr, DecidableEq

/-- `process_articles`. -/
def process_articles (nfc : String → String) (cfg : CleanConfig)
    (articles : List RawArticle) : ProcessArticlesResult :=
  let r := processLoop nfc cfg 0 articles
  { articles := r.2.2
    original_count := r.1
    cleaned_count := r.2.1
    retention_rate :=
      if 0 < r.1 then (r.2.1 : ℚ) / (r.1 : ℚ) * 100 else 0
    success := true }

end NepaliTextCleaner

/-!
### Helper lemmas
-/

lemma tokenAnyFullMatch_nil : tokenAnyFullMatch [] = false := by decide

lemma pyIsSpace_devToArab (c : Char) : pyIsSpace (devToArab c) = pyIsSpace c := by
  unfold devToArab
  repeat' split
  all_goals first | rfl | (rename_i h; subst h; rfl)

lemma pyStripL_map (f : Char → Char) (hf : ∀ c, pyIsSpace (f c) = pyIsSpace c)
    (l : List Char) : pyStripL (l.map f) = (pyStripL l).map f := by
  have hp : (fun c => pyIsSpace (f c)) = pyIsSpace := funext hf
  unfold pyStripL
  rw [List.dropWhile_map]
  simp only [Function.comp_def, hp]
  rw [← List.map_reverse, List.dropWhile_map]
  simp only [Function.comp_def, hp]
  rw [← List.map_reverse]

namespace NepaliTextPreprocessor

lemma strip_ne_of_numToken (cfg : PreprocConfig) (t : String)
    (h : is_number_token cfg t = true) : pyStripL t.data ≠ [] := by
  unfold is_number_token at h
  rw [Bool.and_eq_true] at h
  intro he
  rw [he] at h
  exact absurd h.2 (by decide)

lemma numToken_normDev_strip_ne (cfg : PreprocConfig) (t : String)
    (h : is_number_token cfg t = true) :
    pyStripStr (normalize_devanagari_numerals cfg t) ≠ ("") := by
  have h1 : pyStripL t.data ≠ [] := strip_ne_of_numToken cfg t h
  unfold normalize_devanagari_numerals
  split
  · intro hc
    have h2 : pyStripL (t.data.map devToArab) = [] := congrArg String.data hc
    rw [pyStripL_map devToArab pyIsSpace_devToArab] at h2
    exact h1 (List.map_eq_nil_iff.mp h2)
  · intro hc
    exact h1 (congrArg String.data hc)

end NepaliTextPreprocessor

/-!
### Claim theorems
-/

open NepaliTextPreprocessor NepaliTextCleaner

/-- C1: for every token and every configuration with `preserve_numbers`
enabled, if the token after Unicode NFC and whitespace normalization is
classified numeric by `is_number_token`, then `preprocess_token` returns that
token unchanged except for the optional Devanagari→Arabic digit
normalization: punctuation standardization, URL/email/special-char noise
removal, language filtering, length filtering and stopword removal are all
bypassed. -/
theorem numeric_veto_preprocess (nfc : String → String) (cfg : PreprocConfig)
    (t : String) (_hp : cfg.preserve_numbers = true)
    (hn : is_number_token cfg
      (normalize_whitespace cfg (normalize_unicode nfc cfg t)) = true) :
    preprocess_token nfc cfg t =
      some (normalize_devanagari_numerals cfg
        (normalize_whitespace cfg (normalize_unicode nfc cfg t))) := by
  set t2 := normalize_whitespace cfg (normalize_unicode nfc cfg t) with ht2
  have h3 : NepaliTextPreprocessor.standardize_punctuation cfg t2 = t2 := by
    unfold NepaliTextPreprocessor.standardize_punctuation
    simp [hn]
  have h4 : remove_noise cfg t2 = some t2 := by
    unfold remove_noise
    simp [hn]
  have h5 : filter_by_language cfg t2 = true := by
    unfold filter_by_language
    simp [hn]
  have h6 : NepaliTextPreprocessor.filter_by_length cfg t2 = true := by
    unfold NepaliTextPreprocessor.filter_by_length
    simp [hn]
  have h7 : remove_stopwords cfg t2 = true := by
    unfold remove_stopwords
    simp [hn]
  have h8 := numToken_normDev_strip_ne cfg t2 hn
  simp only [preprocess_token]
  rw [← ht2, h3, h4]
  simp [h5, h6, h7, h8]

/-- Witness for C1: both `"५०%"` and `"50%"` are classified numeric and
survive preprocessing unchanged (digit normalization is off by default). -/
theorem numeric_veto_preprocess_witness :
    is_number_token defaultPreprocConfig ("५०%") = true ∧
    is_number_token defaultPreprocConfig ("50%") = true ∧
    preprocess_token id defaultPreprocConfig ("५०%") = some ("५०%") ∧
    preprocess_token id defaultPreprocConfig ("50%") = some ("50%") :=
  ⟨by decide, by decide,
   numeric_veto_preprocess id defaultPreprocConfig ("५०%") rfl (by decide),
   numeric_veto_preprocess id defaultPreprocConfig ("50%") rfl (by decide)⟩

/-- C2 (code bug): the whitespace-normalization step is supposed to only
collapse whitespace runs and fix the spacing around `।`, `?`, `!`, `,` — but
the source line `re.sub(r'\s*?\s*', '? ', text)` spells the question-mark
rule with a *lazy quantifier* instead of an escaped literal `\?`, so the
pattern matches (possibly emptily) at every position and the substitution
inserts `"? "` throughout the text.  On the whitespace-free input `"ab"` the
claimed behavior is the identity; the code returns `"? a? b?"`. -/
theorem normalize_whitespace_qmark_bug :
    NepaliTextCleaner.normalize_whitespace defaultCleanConfig ("ab") =
      ("? a? b?") ∧ ("? a? b?") ≠ ("ab") := by
  constructor
  · decide
  · decide

/-- C3 (code bug): `clean_text` is not a fixed point on its own outputs.
`"0123456789"` (10 characters, noise-free, inside the length bounds) cleans
to `s₀ = "? 0? 1? 2? 3? 4? 5? 6? 7? 8? 9?"` because of the question-mark
substitution bug, and cleaning `s₀` again — `s₀` is a non-absent output of
`clean_text`, is inside the length bounds and contains no removable noise —
yields a different, longer string. -/
theorem clean_text_not_idempotent :
    NepaliTextCleaner.clean_text id defaultCleanConfig ("0123456789") =
      some ("? 0? 1? 2? 3? 4? 5? 6? 7? 8? 9?") ∧
    NepaliTextCleaner.clean_text id defaultCleanConfig
        ("? 0? 1? 2? 3? 4? 5? 6? 7? 8? 9?") ≠
      some ("? 0? 1? 2? 3? 4? 5? 6? 7? 8? 9?") := by
  constructor
  · decide
  · decide

/-- C7 (code bug): the claimed length-filter boundary fails under the default
configuration.  `"012345678"` is a noise-free text of 9 characters — one
character short of `min_text_length = 10` — so by the claim `clean_text` must
reject it; but the question-mark substitution bug inflates the text to the
28-character `"? 0? 1? 2? 3? 4? 5? 6? 7? 8?"` before the length filter runs,
so the text is kept. -/
theorem length_boundary_violated :
    ("012345678").data.length + 1 = defaultCleanConfig.min_text_length ∧
    NepaliTextCleaner.clean_text id defaultCleanConfig ("012345678") =
      some ("? 0? 1? 2? 3? 4? 5? 6? 7? 8?") := by
  constructor
  · decide
  · decide

/-- C4 (amended): `clean_text` returns `none` exactly when the input is empty
or whitespace-only, or the cleaned result's length lies outside
`[min_text_length, max_text_length]`, or the cleaned result strips to the
empty string (the last case can pass the length filter only when
`min_text_length = 0`, as the counterexample shows; with the default
`min_text_length = 10` it is subsumed by the length bound). -/
theorem clean_text_none_iff (nfc : String → String) (cfg : CleanConfig)
    (t : String) :
    clean_text nfc cfg t = none ↔
      (pyStripStr t = ("") ∨
       (pyStripStr (cleanPhases nfc cfg t)).data.length < cfg.min_text_length ∨
       cfg.max_text_length < (pyStripStr (cleanPhases nfc cfg t)).data.length ∨
       pyStripStr (cleanPhases nfc cfg t) = ("")) := by
  simp only [NepaliTextCleaner.clean_text]
  split_ifs with h1 h2 h3
  · simp [h1]
  · unfold NepaliTextCleaner.filter_by_length at h2
    rw [Bool.and_eq_false_iff] at h2
    simp only [decide_eq_false_iff_not, not_le] at h2
    rcases h2 with h | h
    · exact iff_of_true rfl (Or.inr (Or.inl h))
    · exact iff_of_true rfl (Or.inr (Or.inr (Or.inl h)))
  · exact iff_of_true rfl (Or.inr (Or.inr (Or.inr h3)))
  · refine iff_of_false (by simp) ?_
    rw [Bool.not_eq_false] at h2
    unfold NepaliTextCleaner.filter_by_length at h2
    rw [Bool.and_eq_true] at h2
    simp only [decide_eq_true_eq] at h2
    rintro (h | h | h | h)
    · exact h1 h
    · omega
    · omega
    · exact h3 h

/-- The configuration of the C4 counterexample: defaults except that the
lower length bound is 0 and sentence-structure preservation is off. -/
def cfgC4 : CleanConfig :=
  { defaultCleanConfig with min_text_length := 0, preserve_sentence_structure := false }

/-- Counterexample for C4 as stated: the input `"<a>"` is neither empty nor
whitespace-only, the cleaned result (the empty string left after the HTML tag
is replaced by a space and whitespace is collapsed and stripped) has length 0,
inside `[0, 10000]` — yet `clean_text` returns `none`, through the final
`cleaned_text if cleaned_text else None` truthiness check. -/
theorem clean_text_absent_counterexample :
    NepaliTextCleaner.clean_text id cfgC4 ("<a>") = none ∧
    pyStripStr ("<a>") ≠ ("") ∧
    cfgC4.min_text_length ≤
      (pyStripStr (NepaliTextCleaner.cleanPhases id cfgC4 ("<a>"))).data.length ∧
    (pyStripStr (NepaliTextCleaner.cleanPhases id cfgC4 ("<a>"))).data.length ≤
      cfgC4.max_text_length :=
  ⟨by decide, by decide, by decide, by decide⟩

lemma processLoop_cleaned_le (nfc : String → String) (cfg : CleanConfig) :
    ∀ (l : List NepaliTextCleaner.RawArticle) (o : Nat),
      (NepaliTextCleaner.processLoop nfc cfg o l).2.1 ≤
        (NepaliTextCleaner.processLoop nfc cfg o l).1 := by
  intro l
  induction l with
  | nil => intro o; simp [NepaliTextCleaner.processLoop]
  | cons a rest ih =>
    intro o
    simp only [NepaliTextCleaner.processLoop]
    split_ifs with h
    · exact ih o
    · split
      · simpa using Nat.succ_le_succ (ih (o + 1))
      · simpa using Nat.le_succ_of_le (ih (o + 1))

/-- C5 (amended): the retention rate is `cleaned_count / original_count × 100`
when `original_count > 0` and `0` when `original_count = 0` (no division by
zero); it always lies in `[0, 100]`; and it is `0` exactly when
`cleaned_count = 0` — not only when `original_count = 0`, since a batch in
which every counted article fails cleaning also reports rate `0`. -/
theorem retention_rate_props (nfc : String → String) (cfg : CleanConfig)
    (articles : List NepaliTextCleaner.RawArticle) :
    (process_articles nfc cfg articles).retention_rate =
      (if (process_articles nfc cfg articles).original_count = 0 then 0
       else ((process_articles nfc cfg articles).cleaned_count : ℚ) /
         ((process_articles nfc cfg articles).original_count : ℚ) * 100) ∧
    0 ≤ (process_articles nfc cfg articles).retention_rate ∧
    (process_articles nfc cfg articles).retention_rate ≤ 100 ∧
    ((process_articles nfc cfg articles).retention_rate = 0 ↔
      (process_articles nfc cfg articles).cleaned_count = 0) := by
  have hle := processLoop_cleaned_le nfc cfg articles 0
  simp only [NepaliTextCleaner.process_articles]
  rcases Nat.eq_zero_or_pos (NepaliTextCleaner.processLoop nfc cfg 0 articles).1
    with h0 | hpos
  · rw [h0] at hle ⊢
    refine ⟨by simp, by simp, by norm_num, by simp [Nat.le_zero.mp hle]⟩
  · have hne : (NepaliTextCleaner.processLoop nfc cfg 0 articles).1 ≠ 0 :=
      Nat.pos_iff_ne_zero.mp hpos
    have hcast : (0 : ℚ) < ((NepaliTextCleaner.processLoop nfc cfg 0 articles).1 : ℚ) := by
      exact_mod_cast hpos
    simp only [if_pos hpos, if_neg hne]
    refine ⟨trivial, ?_, ?_, ?_⟩
    · positivity
    · have h1 : ((NepaliTextCleaner.processLoop nfc cfg 0 articles).2.1 : ℚ) /
          ((NepaliTextCleaner.processLoop nfc cfg 0 articles).1 : ℚ) ≤ 1 :=
        div_le_one_of_le₀ (by exact_mod_cast hle) (le_of_lt hcast)
      calc ((NepaliTextCleaner.processLoop nfc cfg 0 articles).2.1 : ℚ) /
            ((NepaliTextCleaner.processLoop nfc cfg 0 articles).1 : ℚ) * 100
          ≤ 1 * 100 := by
            exact mul_le_mul_of_nonneg_right h1 (by norm_num)
        _ = 100 := one_mul 100
    · constructor
      · intro h
        rcases mul_eq_zero.mp h with h | h
        · rcases div_eq_zero_iff.mp h with h | h
          · exact_mod_cast h
          · exact absurd h (ne_of_gt hcast)
        · norm_num at h
      · intro h
        rw [h]
        norm_num

/-- Counterexample for C5 as stated ("rate = 0 exactly when
`original_count = 0`"): a batch with one article whose only text is `"hi"`
counts one original article, the 2-character text fails cleaning, and the
reported retention rate is `0` although `original_count = 1 ≠ 0`. -/
theorem retention_rate_counterexample :
    (process_articles id defaultCleanConfig
      [⟨some ("hi"), none, none, none, none, none, none⟩]).original_count = 1 ∧
    (process_articles id defaultCleanConfig
      [⟨some ("hi"), none, none, none, none, none, none⟩]).retention_rate = 0 := by
  have h : NepaliTextCleaner.processLoop id defaultCleanConfig 0
      [⟨some ("hi"), none, none, none, none, none, none⟩] = (1, 0, []) := by decide
  constructor
  · simp [NepaliTextCleaner.process_articles, h]
  · simp [NepaliTextCleaner.process_articles, h]

lemma anySliceFullMatch_iff (fm : List Char → Bool) (hnil : fm [] = false)
    (l : List Char) :
    anySliceFullMatch fm l = true ↔ ∃ i k, fm ((l.drop i).take k) = true := by
  unfold anySliceFullMatch
  simp only [List.any_eq_true, List.mem_range]
  constructor
  · rintro ⟨i, _, k, _, h⟩
    exact ⟨i, k, h⟩
  · rintro ⟨i, k, h⟩
    by_cases hi : i ≤ l.length
    · by_cases hk : k ≤ l.length - i
      · exact ⟨i, by omega, k, by omega, h⟩
      · refine ⟨i, by omega, l.length - i, by omega, ?_⟩
        have hlen : (l.drop i).length = l.length - i := List.length_drop i l
        have h1 : (l.drop i).take k = l.drop i := List.take_of_length_le (by omega)
        have h2 : (l.drop i).take (l.length - i) = l.drop i :=
          List.take_of_length_le (by omega)
        rw [h2, ← h1]
        exact h
    · exfalso
      have hd : l.drop i = [] := List.drop_eq_nil_of_le (by omega)
      rw [hd] at h
      simp [hnil] at h

/-- C6 (amended): the token-level classifier `is_number_token` uses full-match
semantics — true exactly when the stripped token fully matches one of the
seven patterns — but the text-level `is_number_context` uses `search`
(containment) semantics: true exactly when *some contiguous slice* of the
stripped segment fully matches one of the six cleaner patterns, so a string
that merely contains a numeric substring is classified numeric there. -/
theorem number_match_semantics :
    (∀ (cfg : PreprocConfig) (token : String),
      is_number_token cfg token = true ↔
        (cfg.preserve_numbers = true ∧
          tokenAnyFullMatch (pyStripL token.data) = true)) ∧
    (∀ (cfg : CleanConfig) (text : String) (start stop : Nat),
      is_number_context cfg text start stop = true ↔
        (cfg.preserve_numbers = true ∧ ∃ i k,
          cleanerAnyFullMatch
            (((pyStripL ((text.data.drop start).take (stop - start))).drop i).take k)
            = true)) := by
  constructor
  · intro cfg token
    unfold NepaliTextPreprocessor.is_number_token
    rw [Bool.and_eq_true]
  · intro cfg text start stop
    unfold NepaliTextCleaner.is_number_context
    rw [Bool.and_eq_true, anySliceFullMatch_iff cleanerAnyFullMatch (by decide)]

/-- Counterexample for C6 as stated: the segment `"abc50c"` does not fully
match any cleaner pattern, yet `is_number_context` classifies it numeric
because `search` finds the substring `"5"` (resp. `"50"`). -/
theorem number_context_containment_counterexample :
    NepaliTextCleaner.is_number_context defaultCleanConfig ("abc50c") 0 6 = true ∧
    cleanerAnyFullMatch (pyStripL ("abc50c").data) = false :=
  ⟨by decide, by decide⟩

/-- C8: with `language_filtering` enabled, a numeric token always passes the
language test, and a non-numeric token passes it iff it contains a Devanagari
code point, or is composed entirely of Latin letters with length > 2, or
contains both scripts (the last disjunct is subsumed by the first).  In
particular `"the"` is kept by `preprocess_token` under the default
configuration. -/
theorem language_admissibility (cfg : PreprocConfig) (t : String)
    (hl : cfg.language_filtering = true) :
    (is_number_token cfg t = true → filter_by_language cfg t = true) ∧
    (is_number_token cfg t = false →
      (filter_by_language cfg t = true ↔
        (containsDevanagari t = true ∨
         (latinWordFull t = true ∧ 2 < t.data.length) ∨
         (containsDevanagari t = true ∧ containsLatin t = true)))) ∧
    preprocess_token id defaultPreprocConfig ("the") = some ("the") := by
  refine ⟨?_, ?_, by decide⟩
  · intro h
    unfold filter_by_language
    simp [hl, h]
  · intro h
    unfold filter_by_language
    rcases hd : containsDevanagari t
    · simp [hl, h, hd, Bool.and_eq_true]
    · simp [hl, h, hd]

/-- Witness for C8: `"नेपाल"` (contains Devanagari) passes the language test,
and `"the"` survives default preprocessing. -/
theorem language_admissibility_witness :
    filter_by_language defaultPreprocConfig ("नेपाल") = true ∧
    preprocess_token id defaultPreprocConfig ("the") = some ("the") :=
  ⟨((language_admissibility defaultPreprocConfig ("नेपाल") rfl).2.1
      (by decide)).mpr (Or.inl (by decide)),
   (language_admissibility defaultPreprocConfig ("the") rfl).2.2⟩

/-- C9: whenever `preprocess_token` returns a token, that token is non-empty
and not whitespace-only — the final `token if token.strip() else None` gate
guarantees the stripped result is non-empty. -/
theorem preprocess_token_no_empty (nfc : String → String) (cfg : PreprocConfig)
    (t r : String) (h : preprocess_token nfc cfg t = some r) :
    r ≠ ("") ∧ pyStripStr r ≠ ("") := by
  simp only [preprocess_token] at h
  rcases h4 : remove_noise cfg (NepaliTextPreprocessor.standardize_punctuation cfg
      (NepaliTextPreprocessor.normalize_whitespace cfg
        (NepaliTextPreprocessor.normalize_unicode nfc cfg t))) with _ | t4
  · rw [h4] at h
    exact Option.noConfusion h
  · rw [h4] at h
    dsimp only at h
    split_ifs at h with h1 h2 h3 hstrip
    injection h with he
    subst he
    refine ⟨?_, hstrip⟩
    intro hr
    apply hstrip
    rw [hr]
    rfl

/-- Witness for C9: `"नेपाल"` survives default preprocessing, and the result
is non-empty and not whitespace-only. -/
theorem preprocess_token_no_empty_witness :
    ("नेपाल" : String) ≠ ("") ∧ pyStripStr ("नेपाल") ≠ ("") :=
  preprocess_token_no_empty id defaultPreprocConfig ("नेपाल") ("नेपाल") (by decide)

lemma filterMap_isNone_length {α β : Type} (f : α → Option β) (l : List α) :
    (l.filterMap f).length + (l.filter (fun a => (f a).isNone)).length =
      l.length := by
  induction l with
  | nil => rfl
  | cons a t ih =>
    cases hf : f a with
    | none =>
      simp [List.filterMap_cons, List.filter_cons, hf]
      omega
    | some b =>
      simp [List.filterMap_cons, List.filter_cons, hf]
      omega

lemma dedupAux_length_le (seen : List String) (l : List String) :
    (NepaliTextPreprocessor.dedupAux seen l).length ≤ l.length := by
  induction l generalizing seen with
  | nil => simp [NepaliTextPreprocessor.dedupAux]
  | cons a t ih =>
    simp only [NepaliTextPreprocessor.dedupAux]
    split_ifs
    · exact Nat.le_succ_of_le (ih seen)
    · simpa using ih (a :: seen)

/-- C10: `preprocess_tokens` always succeeds; `original_count` is the input
length; `processed_count` is the length of the returned token list;
`removed_count` counts exactly the tokens rejected by the per-token filters
(duplicates are not counted); hence
`processed_count + removed_count = original_count` when `remove_duplicates`
is off, and `processed_count + removed_count ≤ original_count` always. -/
theorem preprocess_tokens_counts (nfc : String → String) (cfg : PreprocConfig)
    (tokens : List String) :
    (preprocess_tokens nfc cfg tokens).success = true ∧
    (preprocess_tokens nfc cfg tokens).original_count = tokens.length ∧
    (preprocess_tokens nfc cfg tokens).processed_count =
      (preprocess_tokens nfc cfg tokens).tokens.length ∧
    (preprocess_tokens nfc cfg tokens).removed_count =
      (tokens.filter (fun t => (preprocess_token nfc cfg t).isNone)).length ∧
    (cfg.remove_duplicates = false →
      (preprocess_tokens nfc cfg tokens).processed_count +
        (preprocess_tokens nfc cfg tokens).removed_count = tokens.length) ∧
    (preprocess_tokens nfc cfg tokens).processed_count +
      (preprocess_tokens nfc cfg tokens).removed_count ≤ tokens.length := by
  have hc := filterMap_isNone_length (preprocess_token nfc cfg) tokens
  simp only [preprocess_tokens]
  refine ⟨trivial, trivial, trivial, ?_, ?_, ?_⟩
  · omega
  · intro h
    simp only [h, Bool.false_eq_true, if_false]
    omega
  · split_ifs with h
    · have hd : (NepaliTextPreprocessor.dedupFirst
          (tokens.filterMap (preprocess_token nfc cfg))).length ≤
          (tokens.filterMap (preprocess_token nfc cfg)).length :=
        dedupAux_length_le [] (tokens.filterMap (preprocess_token nfc cfg))
      omega
    · omega

/-- The default preprocessor configuration with deduplication off, for the
C10 witness. -/
def cfgNoDup : PreprocConfig :=
  { defaultPreprocConfig with remove_duplicates := false }

/-- Witness for C10: for the batch `["क", "ख", "क", "###"]` with
deduplication disabled, the survivor and rejection counts add up to the
input length. -/
theorem preprocess_tokens_counts_witness :
    (preprocess_tokens id cfgNoDup [("क"), ("ख"), ("क"), ("###")]).processed_count +
      (preprocess_tokens id cfgNoDup [("क"), ("ख"), ("क"), ("###")]).removed_count = 4 ∧
    (preprocess_tokens id cfgNoDup [("क"), ("ख"), ("क"), ("###")]).success = true :=
  ⟨(preprocess_tokens_counts id cfgNoDup [("क"), ("ख"), ("क"), ("###")]).2.2.2.2.1 rfl,
   (preprocess_tokens_counts id cfgNoDup [("क"), ("ख"), ("क"), ("###")]).1⟩
